import Mathlib

/-!
Shallow embedding of `rusqlite-async` (`src/database.rs`): a single-writer
task-queue actor around a SQLite connection.  Requests arrive on one FIFO
channel, the worker processes them in order and sends replies on per-request
channels.  Channels are embedded as the list of messages that pass through
them before the channel closes; the external SQLite connection is embedded
as an abstract state together with oracle functions for the operations the
worker uses (`prepare`, `Statement::execute`, `Statement::query_map`,
`Connection::last_insert_rowid`).  Machine integers (`usize`, `isize`,
`i64`, all 64-bit) are embedded as `Nat`/`Int` with explicit reduction
modulo `2 ^ 64` where Rust casts reinterpret them.
-/

namespace RusqliteAsync

/-- Embeds `enum DatabaseParam` (database.rs lines 36-42).  The `F64`
payload is carried as the 64-bit pattern of the Rust `f64`: no operation in
the repository inspects the float's numeric value, every path moves the bit
pattern around unchanged, so the pattern itself is the faithful embedding. -/
inductive DatabaseParam where
  | String (s : String)
  | Usize (n : Nat)
  | Null
  | F64 (bits : Nat)
deriving DecidableEq, Repr

/-- Embeds `enum rusqlite::types::Value` (the owned value bound into a
statement); `Real` carries the f64 bit pattern, `Text` the decoded string. -/
inductive Value where
  | Null
  | Integer (i : Int)
  | Real (bits : Nat)
  | Text (s : String)
  | Blob (b : List Nat)
deriving DecidableEq, Repr

/-- Embeds `enum rusqlite::types::ValueRef` (a borrowed value read out of a
row).  `Text` is carried as the string its UTF-8 bytes decode to. -/
inductive ValueRef where
  | Null
  | Integer (i : Int)
  | Real (bits : Nat)
  | Text (s : String)
  | Blob (b : List Nat)
deriving DecidableEq, Repr

/-- Embeds the Rust cast `usize as isize` on a 64-bit host: two's-complement
reinterpretation of an unsigned 64-bit value as a signed one. -/
def usizeAsIsize (n : Nat) : Int :=
  if n < 2 ^ 63 then (n : Int) else (n : Int) - 2 ^ 64

/-- Embeds the Rust cast `i64 as usize` on a 64-bit host: two's-complement
reinterpretation of a signed 64-bit value as an unsigned one. -/
def isizeAsUsize (i : Int) : Nat :=
  (i % (2 ^ 64 : Int)).toNat

/-- Embeds `DatabaseParam::to_sql` (database.rs lines 45-52):
`String` goes to a text value, `Usize` is cast `as isize` and stored as an
integer, `Null` stays null, `F64` becomes a real. -/
def DatabaseParam.to_sql : DatabaseParam → Value
  | .String v => Value.Text v
  | .Usize v => Value.Integer (usizeAsIsize v)
  | .Null => Value.Null
  | .F64 v => Value.Real v

/-- Embeds the store round trip performed by SQLite between binding and
extraction: a bound `Value` is read back as the `ValueRef` of the same
variant with the same payload (SQLite stores NULL/INTEGER/REAL/TEXT/BLOB
values losslessly and rusqlite surfaces them unchanged). -/
def Value.asRef : Value → ValueRef
  | Value.Null => ValueRef.Null
  | Value.Integer i => ValueRef.Integer i
  | Value.Real b => ValueRef.Real b
  | Value.Text s => ValueRef.Text s
  | Value.Blob b => ValueRef.Blob b

/-- Embeds the worker's `ValueRef`-to-`DatabaseParam` match inside the
`query_map` closure (database.rs lines 227-233): null and blob go to
`Null`, integers are cast `as usize`, reals pass through, text is decoded
with `from_utf8_lossy` (the identity on valid UTF-8, which is what the
embedding of text as `String` carries). -/
def valueRefToParam : ValueRef → DatabaseParam
  | ValueRef.Null => DatabaseParam.Null
  | ValueRef.Integer i => DatabaseParam.Usize (isizeAsUsize i)
  | ValueRef.Real f => DatabaseParam.F64 f
  | ValueRef.Text s => DatabaseParam.String s
  | ValueRef.Blob _ => DatabaseParam.Null

/-- Embeds `struct DatabaseParams` (database.rs lines 65-67). -/
structure DatabaseParams where
  params : List DatabaseParam
deriving DecidableEq, Repr

/-- Embeds `DatabaseParams::to_params` (database.rs lines 70-73): convert
each parameter with `to_sql`, in order. -/
def DatabaseParams.to_params (p : DatabaseParams) : List Value :=
  p.params.map DatabaseParam.to_sql

/-- Embeds `DatabaseParams::empty`. -/
def DatabaseParams.empty : DatabaseParams := ⟨[]⟩

/-- Embeds `enum ItemStream` (database.rs lines 18-22): one message of a
query's reply stream. -/
inductive ItemStream where
  | Value (row : List DatabaseParam)
  | Error
  | End
deriving DecidableEq, Repr

/-- Embeds `enum InsertMessage` (database.rs lines 24-27).  The `Success`
payload is the `usize` row id. -/
inductive InsertMessage where
  | Success (v : Nat)
  | Error
deriving DecidableEq, Repr

/-- Embeds `enum DatabaseTask` (database.rs lines 29-34).  The per-request
reply senders are left off the envelope: each envelope's reply channel is
fresh and single-use, so the worker model returns the messages sent on it
alongside the processed envelope instead. -/
inductive DatabaseTask where
  | Execute (query : String) (params : DatabaseParams)
  | WaitExecute (query : String) (params : DatabaseParams)
  | Insert (query : String) (params : DatabaseParams)
  | Query (query : String) (params : DatabaseParams)
deriving DecidableEq, Repr

/-- Modelled from the spec: the `ResonateError` type that `database.rs`
imports from `super::error` is not among the source files under src/
(`error.rs` defines unrelated `Error`/`ChannelError` types); the spec
describes it as "a single generic error variant", which `query_map`
constructs as `ResonateError::GenericError`. -/
inductive ResonateError where
  | GenericError
deriving DecidableEq, Repr

/-- Embeds one raw row as rusqlite presents it to the worker's closure: the
result of `row.get_ref(idx)` for each column index (an error models a
failing `get_ref`). -/
def RawRow : Type := Nat → Except Unit ValueRef

/-- Embeds a row of extracted column values (`Vec<DatabaseParam>`). -/
abbrev Row := List DatabaseParam

/-- Oracle for one prepared statement, over an abstract connection state
`σ`: its declared column count, the effect and result of
`Statement::execute` (the database state after, and the changed-row count
or error), and the outcome of starting and draining `Statement::query_map`
(an error models bind/start failure; each list item models one fetched row
result, an error item modelling a row-source failure mid-iteration). -/
structure StmtModel (σ : Type) where
  column_count : Nat
  execute : List Value → σ → σ × Except Unit Nat
  run_rows : List Value → σ → Except Unit (List (Except Unit RawRow))

/-- Oracle for the rusqlite `Connection` the worker owns: preparing a
statement from SQL text at a given state, and reading
`last_insert_rowid` (an `i64`) from a state. -/
structure ConnModel (σ : Type) where
  prepare : σ → String → Except Unit (StmtModel σ)
  last_insert_rowid : σ → Int

/-- Embeds the column-extraction loop of the worker's `query_map` closure
(database.rs lines 219-236): for `idx` in `0..column_count`, a failing
`get_ref` skips the column (`continue 'inner`), a successful one pushes the
converted value. -/
def extractRow (column_count : Nat) (raw : RawRow) : List DatabaseParam :=
  (List.range column_count).filterMap (fun idx =>
    match raw idx with
    | Except.error _ => none
    | Except.ok v => some (valueRefToParam v))

/-- Embeds the tail of the worker's `query_map` closure (database.rs lines
238-239): a row is `Ok` exactly when every column was extracted, otherwise
the closure returns an error (which the caller filters out). -/
def mapRow (column_count : Nat) (raw : RawRow) : Except Unit Row :=
  let values := extractRow column_count raw
  if column_count = values.length then Except.ok values else Except.error ()

/-- Embeds `rows.filter_map(|x| x.ok()).collect()` (database.rs line 241):
each fetched item is either a row-source error or the closure's `mapRow`
outcome, and only the `Ok` outcomes are retained, in order. -/
def forwardedRows (column_count : Nat) (items : List (Except Unit RawRow)) :
    List Row :=
  items.filterMap (fun item =>
    match item with
    | Except.error _ => none
    | Except.ok raw => (mapRow column_count raw).toOption)

/-- Embeds the `DatabaseTask::Query` arm of `database_thread` (database.rs
lines 208-252) as the list of messages sent on the query's reply channel:
prepare failure sends one `Error`; a failing `query_map` call sends one
`Error`; otherwise the retained rows are sent as `Value` messages followed
by one `End`. -/
def queryReplies {σ : Type} (C : ConnModel σ) (s : σ) (query : String)
    (params : DatabaseParams) : List ItemStream :=
  match C.prepare s query with
  | Except.error _ => [ItemStream.Error]
  | Except.ok statement =>
    match statement.run_rows params.to_params s with
    | Except.error _ => [ItemStream.Error]
    | Except.ok rawItems =>
      (forwardedRows statement.column_count rawItems).map ItemStream.Value
        ++ [ItemStream.End]

/-- Messages sent on one envelope's reply channel, tagged by the channel's
element type (`()` for `WaitExecute`, `InsertMessage` for `Insert`,
`ItemStream` for `Query`, none for `Execute`). -/
inductive TaskReply where
  | noReply
  | acks (msgs : List Unit)
  | insertMsgs (msgs : List InsertMessage)
  | queryMsgs (msgs : List ItemStream)
deriving DecidableEq, Repr

/-- Embeds the dispatch `match current_task` of `database_thread`
(database.rs lines 186-253): the connection state after the envelope and
the messages sent on its reply channel.  `Execute` swallows everything;
`WaitExecute` signals once whether or not prepare succeeded; `Insert`
replies `Error` on prepare failure and otherwise runs the statement
(ignoring its result) and replies `Success(last_insert_rowid as usize)`;
`Query` sends `queryReplies`. -/
def processTask {σ : Type} (C : ConnModel σ) (s : σ) :
    DatabaseTask → σ × TaskReply
  | DatabaseTask.Execute q ps =>
    match C.prepare s q with
    | Except.error _ => (s, TaskReply.noReply)
    | Except.ok statement => ((statement.execute ps.to_params s).1, TaskReply.noReply)
  | DatabaseTask.WaitExecute q ps =>
    match C.prepare s q with
    | Except.error _ => (s, TaskReply.acks [()])
    | Except.ok statement => ((statement.execute ps.to_params s).1, TaskReply.acks [()])
  | DatabaseTask.Insert q ps =>
    match C.prepare s q with
    | Except.error _ => (s, TaskReply.insertMsgs [InsertMessage.Error])
    | Except.ok statement =>
      let s' := (statement.execute ps.to_params s).1
      (s', TaskReply.insertMsgs
        [InsertMessage.Success (isizeAsUsize (C.last_insert_rowid s'))])
  | DatabaseTask.Query q ps => (s, TaskReply.queryMsgs (queryReplies C s q ps))

/-- Embeds the `'mainloop` of `database_thread` (database.rs lines 180-254)
over the finite sequence of envelopes the FIFO task channel delivers before
it closes (`recv_blocking` returning `Err` because every sender was
dropped): each envelope is processed in arrival order against the threaded
connection state, and the loop's trace pairs each envelope with the reply
messages the worker sent for it. -/
def runLoop {σ : Type} (C : ConnModel σ) :
    σ → List DatabaseTask → List (DatabaseTask × TaskReply)
  | _, [] => []
  | s, t :: rest =>
    let step := processTask C s t
    (t, step.2) :: runLoop C step.1 rest

/-- Embeds `database_thread` (database.rs lines 173-255): if
`Connection::open` fails the worker returns at once and processes nothing;
otherwise it runs the main loop until the task channel closes. -/
def database_thread {σ : Type} (C : ConnModel σ) (openResult : Except Unit σ)
    (tasks : List DatabaseTask) : List (DatabaseTask × TaskReply) :=
  match openResult with
  | Except.error _ => []
  | Except.ok s0 => runLoop C s0 tasks

/-- Embeds `Sender::send_blocking` on the unbounded task channel: on an
unbounded channel the send fails exactly when the receiver end has been
dropped (`closed`), and never blocks. -/
def send_blocking (closed : Bool) : Except Unit Unit :=
  if closed then Except.error () else Except.ok ()

/-- Embeds `DataLink::execute` (database.rs lines 95-97): forward the send
result, mapping the error payload to `()`. -/
def DataLink.execute (closed : Bool) : Except Unit Unit :=
  (send_blocking closed).mapError (fun _ => ())

/-- Embeds `DataLink::execute_and_wait` (database.rs lines 99-106): the
send result is discarded (`let _ = ...`); the caller then awaits one
message, `recvResult` being the first message received on the reply channel
(`none` when the channel closed without one). -/
def DataLink.execute_and_wait (sendResult : Except Unit Unit)
    (recvResult : Option Unit) : Except Unit Unit :=
  let _ := sendResult
  match recvResult with
  | some _ => Except.ok ()
  | none => Except.error ()

/-- Embeds `DataLink::insert` (database.rs lines 109-118): the send result
is discarded; a closed reply channel yields `none`, then `Success`/`Error`
map to `some`/`none`. -/
def DataLink.insert (sendResult : Except Unit Unit)
    (recvResult : Option InsertMessage) : Option Nat :=
  let _ := sendResult
  match recvResult with
  | none => none
  | some (InsertMessage.Success v) => some v
  | some InsertMessage.Error => none

/-- Embeds `DataLink::insert_stream` (database.rs lines 120-124): the send
result is discarded and the receiver itself is handed back; the caller
observes exactly the messages the worker sends on it. -/
def DataLink.insert_stream (sendResult : Except Unit Unit)
    (received : List InsertMessage) : List InsertMessage :=
  let _ := sendResult
  received

/-- Embeds `DataLink::query_stream` (database.rs lines 127-131): the send
result is discarded and the receiver is handed back. -/
def DataLink.query_stream (sendResult : Except Unit Unit)
    (received : List ItemStream) : List ItemStream :=
  let _ := sendResult
  received

/-- Embeds the `while let Ok(item) = receiver.recv().await` loop of
`DataLink::query_map` (database.rs lines 140-148) over the messages the
channel delivers before closing: `End` breaks, `Error` sets the flag and
breaks, `Value` pushes; exhausting the list is `recv` failing because the
channel closed.  Returns the collected rows and the error flag. -/
def collectLoop : List ItemStream → List Row × Bool
  | [] => ([], false)
  | ItemStream.End :: _ => ([], false)
  | ItemStream.Error :: _ => ([], true)
  | ItemStream.Value v :: rest =>
    let r := collectLoop rest
    (v :: r.1, r.2)

/-- Embeds `DataLink::query_map` (database.rs lines 134-154): the send
result is discarded; drain the reply channel with the collect loop, then
return the rows on no error and `GenericError` otherwise. -/
def DataLink.query_map (sendResult : Except Unit Unit)
    (received : List ItemStream) : Except ResonateError (List Row) :=
  let _ := sendResult
  let r := collectLoop received
  if r.2 then Except.error ResonateError.GenericError else Except.ok r.1

/-- Spec vocabulary: a terminal marker of a query reply stream is `End` or
`Error`; `Value` messages are not terminal. -/
def ItemStream.isTerminal : ItemStream → Bool
  | ItemStream.Value _ => false
  | ItemStream.Error => true
  | ItemStream.End => true

/-- Query text used to instantiate the oracle models at concrete inputs. -/
def demoQuery : String := "SELECT"

/-- Insert text used to instantiate the oracle models at concrete inputs. -/
def demoInsert : String := "INSERT"

/-- A raw row whose every `get_ref` succeeds with the integer 5. -/
def rawRowOk : RawRow := fun _ => Except.ok (ValueRef.Integer 5)

/-- A raw row whose every `get_ref` fails, so its extraction comes up
short. -/
def rawRowBad : RawRow := fun _ => Except.error ()

/-- A statement whose `execute` fails and whose row source is empty. -/
def stmtZero : StmtModel Unit where
  column_count := 1
  execute := fun _ s => (s, Except.error ())
  run_rows := fun _ _ => Except.ok []

/-- A statement whose row source fails mid-iteration: its single fetched
item is a row-source error. -/
def stmtMidFail : StmtModel Unit where
  column_count := 1
  execute := fun _ s => (s, Except.ok 0)
  run_rows := fun _ _ => Except.ok [Except.error ()]

/-- A statement with one fully extractable row followed by one row whose
extraction comes up short. -/
def stmtTwoRows : StmtModel Unit where
  column_count := 1
  execute := fun _ s => (s, Except.ok 0)
  run_rows := fun _ _ => Except.ok [Except.ok rawRowOk, Except.ok rawRowBad]

/-- A connection on which every prepare fails. -/
def connFail : ConnModel Unit where
  prepare := fun _ _ => Except.error ()
  last_insert_rowid := fun _ => 0

/-- A connection that always prepares `stmtZero` and whose last generated
row id is 7. -/
def connZero : ConnModel Unit where
  prepare := fun _ _ => Except.ok stmtZero
  last_insert_rowid := fun _ => 7

/-- A connection that always prepares `stmtMidFail`. -/
def connMidFail : ConnModel Unit where
  prepare := fun _ _ => Except.ok stmtMidFail
  last_insert_rowid := fun _ => 0

/-- A connection that always prepares `stmtTwoRows`. -/
def connTwoRows : ConnModel Unit where
  prepare := fun _ _ => Except.ok stmtTwoRows
  last_insert_rowid := fun _ => 0

/-- Collecting a stream of row messages closed by an `End` terminal leaves
the rows and no error flag. -/
lemma collectLoop_values_end (rows : List Row) :
    collectLoop (rows.map ItemStream.Value ++ [ItemStream.End]) = (rows, false) := by
  induction rows with
  | nil => rfl
  | cons r t ih => simp [collectLoop, ih]

/-- Collecting a stream of row messages that closes with no terminal at all
leaves the rows and no error flag. -/
lemma collectLoop_values (rows : List Row) :
    collectLoop (rows.map ItemStream.Value) = (rows, false) := by
  induction rows with
  | nil => rfl
  | cons r t ih => simp [collectLoop, ih]

/-- The main loop produces one trace entry per delivered envelope. -/
lemma runLoop_length {σ : Type} (C : ConnModel σ) (tasks : List DatabaseTask)
    (s : σ) : (runLoop C s tasks).length = tasks.length := by
  induction tasks generalizing s with
  | nil => rfl
  | cons t rest ih => simp [runLoop, ih]

/-- The main loop's trace lists the delivered envelopes in delivery
order. -/
lemma runLoop_map_fst {σ : Type} (C : ConnModel σ) (tasks : List DatabaseTask)
    (s : σ) : (runLoop C s tasks).map Prod.fst = tasks := by
  induction tasks generalizing s with
  | nil => rfl
  | cons t rest ih => simp [runLoop, ih]

/-- Draining a well-terminated stream with `query_map` returns its rows. -/
lemma query_map_values_end (sr : Except Unit Unit) (rows : List Row) :
    DataLink.query_map sr (rows.map ItemStream.Value ++ [ItemStream.End])
      = Except.ok rows := by
  simp [DataLink.query_map, collectLoop_values_end]

/-- Validity of a `DatabaseParam` as the Rust value it embeds: the `Usize`
payload is a `usize`, i.e. fits in 64 bits; the other variants carry no
constraint. -/
def paramValid : DatabaseParam → Prop
  | DatabaseParam.Usize n => n < 2 ^ 64
  | _ => True

/-- C7: for every `Value` of variant text, unsigned integer, floating
point, or null, converting it with `to_sql`, round-tripping it through the
store, and extracting it back with the worker's `ValueRef` mapping yields
the original value: text byte-for-byte, unsigned integers exactly (also
when the `isize` reinterpretation is negative), floats bit-for-bit, null
to null. -/
theorem param_bind_extract_roundtrip (p : DatabaseParam) (h : paramValid p) :
    valueRefToParam (Value.asRef p.to_sql) = p := by
  cases p with
  | String s => rfl
  | Null => rfl
  | F64 b => rfl
  | Usize n =>
    have hn : n < 2 ^ 64 := h
    simp only [DatabaseParam.to_sql, Value.asRef, valueRefToParam,
      DatabaseParam.Usize.injEq, isizeAsUsize, usizeAsIsize]
    split <;> omega

/-- Witness for C7 at the unsigned value `2 ^ 64 - 1`, whose `isize`
reinterpretation is `-1`. -/
theorem param_bind_extract_roundtrip_witness :
    paramValid (DatabaseParam.Usize (2 ^ 64 - 1))
    ∧ valueRefToParam (Value.asRef (DatabaseParam.Usize (2 ^ 64 - 1)).to_sql)
        = DatabaseParam.Usize (2 ^ 64 - 1) := by
  have h : paramValid (DatabaseParam.Usize (2 ^ 64 - 1)) := by
    simp [paramValid]
  exact ⟨h, param_bind_extract_roundtrip (DatabaseParam.Usize (2 ^ 64 - 1)) h⟩

/-- C5: the worker answers every `WaitExecute` envelope with exactly one
unit acknowledgement, whether or not preparation succeeded (execution
errors are swallowed); `execute_and_wait` maps a received signal to
success and a closed reply channel to failure, so it succeeds even when
the underlying statement failed. -/
theorem wait_execute_single_ack {σ : Type} (C : ConnModel σ) (s : σ)
    (q : String) (ps : DatabaseParams) (sr : Except Unit Unit) :
    (processTask C s (DatabaseTask.WaitExecute q ps)).2 = TaskReply.acks [()]
    ∧ DataLink.execute_and_wait sr (some ()) = Except.ok ()
    ∧ DataLink.execute_and_wait sr none = Except.error () := by
  refine ⟨?_, rfl, rfl⟩
  rcases hp : C.prepare s q with e | st <;> simp [processTask, hp]

/-- C8: the worker terminates only when the initial connection open fails
(processing nothing) or when the task channel closes after delivering its
envelopes; per-envelope prepare, bind or execute failures are non-fatal,
so for every connection oracle — including one on which every statement
operation fails — the worker processes every delivered envelope. -/
theorem worker_fatal_conditions_only {σ : Type} (C : ConnModel σ)
    (tasks : List DatabaseTask) :
    database_thread C (Except.error ()) tasks = []
    ∧ ∀ s0 : σ,
        (database_thread C (Except.ok s0) tasks).length = tasks.length := by
  exact ⟨rfl, fun s0 => runLoop_length C tasks s0⟩

/-- C9: the worker's trace processes envelopes exactly in the order the
single FIFO task channel delivered them — the enqueue order across all
producers — with no reordering; replies (in particular `Insert` replies)
are therefore emitted in submission order. -/
theorem worker_global_fifo_order {σ : Type} (C : ConnModel σ) (s0 : σ)
    (tasks : List DatabaseTask) :
    (database_thread C (Except.ok s0) tasks).map Prod.fst = tasks :=
  runLoop_map_fst C tasks s0

/-- C10: `DataLink::execute` returns unit success exactly when the envelope
was enqueued (channel open) and unit failure exactly when the consumer end
was dropped; every other public operation discards its submission result,
so its outcome never depends on whether the send succeeded. -/
theorem execute_reports_submission_failure (closed : Bool) :
    (DataLink.execute closed = Except.ok () ↔ closed = false)
    ∧ (DataLink.execute closed = Except.error () ↔ closed = true)
    ∧ (∀ s1 s2 r, DataLink.execute_and_wait s1 r = DataLink.execute_and_wait s2 r)
    ∧ (∀ s1 s2 r, DataLink.insert s1 r = DataLink.insert s2 r)
    ∧ (∀ s1 s2 r, DataLink.insert_stream s1 r = DataLink.insert_stream s2 r)
    ∧ (∀ s1 s2 r, DataLink.query_stream s1 r = DataLink.query_stream s2 r)
    ∧ (∀ s1 s2 r, DataLink.query_map s1 r = DataLink.query_map s2 r) := by
  refine ⟨?_, ?_, fun _ _ _ => rfl, fun _ _ _ => rfl, fun _ _ _ => rfl,
    fun _ _ _ => rfl, fun _ _ _ => rfl⟩ <;>
    cases closed <;>
    simp [DataLink.execute, send_blocking, Except.mapError]

/-- Witness for C10 at both channel states. -/
theorem execute_reports_submission_failure_witness :
    DataLink.execute false = Except.ok ()
    ∧ DataLink.execute true = Except.error () :=
  ⟨(execute_reports_submission_failure false).1.2 rfl,
    (execute_reports_submission_failure true).2.1.2 rfl⟩

/-- C3 counterexample: when the reply channel closes before any terminal
marker — here before delivering any message at all, as when the worker has
terminated — `query_map` returns a success value (the rows received so
far), not a generic failure. -/
theorem query_map_closed_channel_cex :
    DataLink.query_map (Except.ok ()) ([] : List ItemStream)
        = Except.ok ([] : List Row)
    ∧ DataLink.query_map (Except.ok ()) ([] : List ItemStream)
        ≠ Except.error ResonateError.GenericError :=
  ⟨rfl, fun h => Except.noConfusion h⟩

/-- C3 amended: when the reply channel closes before any terminal marker,
`query_map` reports success with the rows received up to that point (an
empty list when the worker never replied); only a received `Error`
terminal produces the generic failure. -/
theorem query_map_closed_channel_partial_rows (sr : Except Unit Unit)
    (rows : List Row) :
    DataLink.query_map sr (rows.map ItemStream.Value) = Except.ok rows := by
  simp [DataLink.query_map, collectLoop_values]

/-- C4: the worker answers an `Insert` envelope with `Error` exactly when
preparation fails, and with `Success` carrying the connection's
last-generated row id (cast `as usize`) whenever preparation succeeds,
even though the bind/execute result is discarded; `DataLink::insert` maps
`Success` to a present id, and `Error` or a closed reply channel to
absence. -/
theorem insert_reply_semantics {σ : Type} (C : ConnModel σ) (s : σ)
    (q : String) (ps : DatabaseParams) (sr : Except Unit Unit) :
    (∀ e, C.prepare s q = Except.error e →
        (processTask C s (DatabaseTask.Insert q ps)).2
          = TaskReply.insertMsgs [InsertMessage.Error])
    ∧ (∀ statement, C.prepare s q = Except.ok statement →
        (processTask C s (DatabaseTask.Insert q ps)).2
          = TaskReply.insertMsgs [InsertMessage.Success
              (isizeAsUsize (C.last_insert_rowid
                (statement.execute ps.to_params s).1))])
    ∧ (∀ v, DataLink.insert sr (some (InsertMessage.Success v)) = some v)
    ∧ DataLink.insert sr (some InsertMessage.Error) = none
    ∧ DataLink.insert sr none = none := by
  refine ⟨?_, ?_, fun v => rfl, rfl, rfl⟩
  · intro e he
    simp [processTask, he]
  · intro st hst
    simp [processTask, hst]

/-- Witness for C4: a failing prepare yields `Error`; a succeeding prepare
whose execute step fails (`stmtZero.execute` errors) still yields
`Success 7`, the connection's last row id. -/
theorem insert_reply_semantics_witness :
    (processTask connFail ()
        (DatabaseTask.Insert demoInsert DatabaseParams.empty)).2
      = TaskReply.insertMsgs [InsertMessage.Error]
    ∧ (processTask connZero ()
        (DatabaseTask.Insert demoInsert DatabaseParams.empty)).2
      = TaskReply.insertMsgs [InsertMessage.Success 7] := by
  constructor
  · exact (insert_reply_semantics connFail () demoInsert DatabaseParams.empty
      (Except.ok ())).1 () rfl
  · have h := (insert_reply_semantics connZero () demoInsert
      DatabaseParams.empty (Except.ok ())).2.1 stmtZero rfl
    have h7 : isizeAsUsize (connZero.last_insert_rowid
        ((stmtZero.execute DatabaseParams.empty.to_params ()).1)) = 7 := by
      decide
    rw [h, h7]

/-- C1: every query reply stream is zero or more `Value` rows followed by
exactly one terminal, `End` or `Error`, never both; a prepare failure
yields `[Error]` and a statement matching zero rows yields `[End]`, and
the collecting shape (`query_map`) maps these to a generic failure and an
empty success respectively, while the streaming shape (`query_stream`)
hands the stream through unchanged. -/
theorem query_stream_terminal_discipline {σ : Type} (C : ConnModel σ)
    (s : σ) (q : String) (ps : DatabaseParams) (sr : Except Unit Unit) :
    ((∃ rows : List Row,
        queryReplies C s q ps = rows.map ItemStream.Value ++ [ItemStream.End])
      ∨ queryReplies C s q ps = [ItemStream.Error])
    ∧ (queryReplies C s q ps).countP ItemStream.isTerminal = 1
    ∧ (∀ e, C.prepare s q = Except.error e →
        queryReplies C s q ps = [ItemStream.Error]
        ∧ DataLink.query_map sr (queryReplies C s q ps)
            = Except.error ResonateError.GenericError)
    ∧ (∀ statement, C.prepare s q = Except.ok statement →
        statement.run_rows ps.to_params s = Except.ok [] →
        queryReplies C s q ps = [ItemStream.End]
        ∧ DataLink.query_map sr (queryReplies C s q ps) = Except.ok [])
    ∧ DataLink.query_stream sr (queryReplies C s q ps)
        = queryReplies C s q ps := by
  rcases hp : C.prepare s q with e | st
  · have hq : queryReplies C s q ps = [ItemStream.Error] := by
      simp [queryReplies, hp]
    refine ⟨Or.inr hq, ?_, ?_, ?_, rfl⟩
    · rw [hq]; rfl
    · intro e' _
      exact ⟨hq, by rw [hq]; rfl⟩
    · intro st' hst' _
      exact absurd hst' (by simp)
  · rcases hr : st.run_rows ps.to_params s with e | items
    · have hq : queryReplies C s q ps = [ItemStream.Error] := by
        simp [queryReplies, hp, hr]
      refine ⟨Or.inr hq, by rw [hq]; rfl, ?_, ?_, rfl⟩
      · intro e' he'
        exact absurd he' (by simp)
      · intro st' hst' hrun
        injection hst' with h'
        subst h'
        rw [hr] at hrun
        exact absurd hrun (by simp)
    · have hq : queryReplies C s q ps
          = (forwardedRows st.column_count items).map ItemStream.Value
              ++ [ItemStream.End] := by
        simp [queryReplies, hp, hr]
      refine ⟨Or.inl ⟨_, hq⟩, ?_, ?_, ?_, rfl⟩
      · rw [hq]
        simp [List.countP_append, List.countP_map, ItemStream.isTerminal,
          List.countP_cons, Function.comp]
      · intro e' he'
        exact absurd he' (by simp)
      · intro st' hst' hrun
        injection hst' with h'
        subst h'
        rw [hr] at hrun
        injection hrun with h''
        subst h''
        exact ⟨by rw [hq]; rfl, by rw [hq]; exact query_map_values_end sr _⟩

/-- Witness for C1: a failing prepare and a zero-row statement, in both
call shapes. -/
theorem query_stream_terminal_discipline_witness :
    (queryReplies connFail () demoQuery DatabaseParams.empty
        = [ItemStream.Error]
      ∧ DataLink.query_map (Except.ok ())
          (queryReplies connFail () demoQuery DatabaseParams.empty)
        = Except.error ResonateError.GenericError)
    ∧ (queryReplies connZero () demoQuery DatabaseParams.empty
        = [ItemStream.End]
      ∧ DataLink.query_map (Except.ok ())
          (queryReplies connZero () demoQuery DatabaseParams.empty)
        = Except.ok []) := by
  constructor
  · exact (query_stream_terminal_discipline connFail () demoQuery
      DatabaseParams.empty (Except.ok ())).2.2.1 () rfl
  · exact (query_stream_terminal_discipline connZero () demoQuery
      DatabaseParams.empty (Except.ok ())).2.2.2.1 stmtZero rfl rfl

/-- C2 counterexample: on a connection whose statement prepares and binds
successfully but whose row source fails mid-iteration (`stmtMidFail`
fetches one row-source error), the caller receives an `End` terminal and
no `Error` terminal at all — the failure is swallowed, refuting the claim
that a mid-iteration failure produces an `Error` terminal. -/
theorem query_mid_iteration_error_swallowed_cex :
    queryReplies connMidFail () demoQuery DatabaseParams.empty
        = [ItemStream.End]
    ∧ ItemStream.Error ∉
        queryReplies connMidFail () demoQuery DatabaseParams.empty := by
  refine ⟨rfl, ?_⟩
  intro hmem
  rw [show queryReplies connMidFail () demoQuery DatabaseParams.empty
      = [ItemStream.End] from rfl] at hmem
  simp at hmem

/-- C2 amended: an `Error` terminal is sent exactly when statement
preparation fails or the `query_map` call itself (parameter bind/start)
fails; once row iteration has begun, failing items of the row source are
silently dropped and the stream still ends with a single `End` terminal,
never an `Error`. -/
theorem query_error_terminal_iff_prepare_or_bind {σ : Type}
    (C : ConnModel σ) (s : σ) (q : String) (ps : DatabaseParams) :
    (queryReplies C s q ps = [ItemStream.Error]
      ↔ (∃ e, C.prepare s q = Except.error e)
        ∨ (∃ statement e, C.prepare s q = Except.ok statement
            ∧ statement.run_rows ps.to_params s = Except.error e))
    ∧ (∀ statement items, C.prepare s q = Except.ok statement →
        statement.run_rows ps.to_params s = Except.ok items →
        queryReplies C s q ps
          = (forwardedRows statement.column_count items).map ItemStream.Value
              ++ [ItemStream.End]
        ∧ ItemStream.Error ∉ queryReplies C s q ps) := by
  rcases hp : C.prepare s q with e | st
  · refine ⟨⟨fun _ => Or.inl ⟨e, rfl⟩, fun _ => by simp [queryReplies, hp]⟩, ?_⟩
    intro st' items hst' _
    exact absurd hst' (by simp)
  · rcases hr : st.run_rows ps.to_params s with e | items
    · refine ⟨⟨fun _ => Or.inr ⟨st, e, rfl, hr⟩,
        fun _ => by simp [queryReplies, hp, hr]⟩, ?_⟩
      intro st' items' hst' hrun
      injection hst' with h'
      subst h'
      rw [hr] at hrun
      exact absurd hrun (by simp)
    · have hq : queryReplies C s q ps
          = (forwardedRows st.column_count items).map ItemStream.Value
              ++ [ItemStream.End] := by
        simp [queryReplies, hp, hr]
      constructor
      · constructor
        · intro hEq
          rw [hq] at hEq
          rcases hfw : forwardedRows st.column_count items with _ | ⟨r, t⟩
          · rw [hfw] at hEq
            simp at hEq
          · rw [hfw] at hEq
            simp at hEq
        · rintro (⟨e', he'⟩ | ⟨st', e', hst', hrun⟩)
          · exact absurd he' (by simp)
          · injection hst' with h'
            subst h'
            rw [hr] at hrun
            exact absurd hrun (by simp)
      · intro st' items' hst' hrun
        injection hst' with h'
        subst h'
        rw [hr] at hrun
        injection hrun with h''
        subst h''
        refine ⟨hq, ?_⟩
        rw [hq]
        simp

/-- Witness for C2 amended, at the mid-iteration-failure connection: the
stream is the (empty) retained rows followed by `End`, with no `Error`. -/
theorem query_error_terminal_iff_witness :
    queryReplies connMidFail () demoQuery DatabaseParams.empty
        = (forwardedRows 1 [Except.error ()]).map ItemStream.Value
            ++ [ItemStream.End]
    ∧ ItemStream.Error ∉
        queryReplies connMidFail () demoQuery DatabaseParams.empty :=
  (query_error_terminal_iff_prepare_or_bind connMidFail () demoQuery
    DatabaseParams.empty).2 stmtMidFail [Except.error ()] rfl rfl

/-- C6: a row fetched during a query is forwarded to the caller exactly
when the number of successfully extracted column values equals the
statement's declared column count; a short row is dropped silently and the
query still terminates with `End`. -/
theorem row_forwarded_iff_full_extraction {σ : Type} (C : ConnModel σ)
    (s : σ) (q : String) (ps : DatabaseParams) (statement : StmtModel σ)
    (items : List (Except Unit RawRow))
    (hp : C.prepare s q = Except.ok statement)
    (hr : statement.run_rows ps.to_params s = Except.ok items) :
    (∀ raw, Except.ok raw ∈ items →
        (extractRow statement.column_count raw).length
          = statement.column_count →
        ItemStream.Value (extractRow statement.column_count raw)
          ∈ queryReplies C s q ps)
    ∧ (∀ v, ItemStream.Value v ∈ queryReplies C s q ps →
        ∃ raw, Except.ok raw ∈ items
          ∧ v = extractRow statement.column_count raw
          ∧ v.length = statement.column_count)
    ∧ (queryReplies C s q ps).getLast? = some ItemStream.End := by
  have hq : queryReplies C s q ps
      = (forwardedRows statement.column_count items).map ItemStream.Value
          ++ [ItemStream.End] := by
    simp [queryReplies, hp, hr]
  refine ⟨?_, ?_, ?_⟩
  · intro raw hmem hlen
    rw [hq]
    refine List.mem_append_left _ ?_
    refine List.mem_map.mpr
      ⟨extractRow statement.column_count raw, ?_, rfl⟩
    refine List.mem_filterMap.mpr ⟨Except.ok raw, hmem, ?_⟩
    show (mapRow statement.column_count raw).toOption = _
    unfold mapRow
    rw [if_pos hlen.symm]
    rfl
  · intro v hv
    rw [hq] at hv
    rcases List.mem_append.mp hv with h1 | h2
    · obtain ⟨r, hrmem, hrv⟩ := List.mem_map.mp h1
      injection hrv with h'
      subst h'
      obtain ⟨item, himem, hitem⟩ := List.mem_filterMap.mp hrmem
      rcases item with e | raw
      · simp at hitem
      · refine ⟨raw, himem, ?_⟩
        simp only [mapRow] at hitem
        split at hitem
        · rename_i hc
          simp [Except.toOption] at hitem
          subst hitem
          exact ⟨rfl, hc.symm⟩
        · simp [Except.toOption] at hitem
    · simp at h2
  · rw [hq]
    exact List.getLast?_concat _

/-- Witness for C6: over `stmtTwoRows` (one fully extractable row, one
short row) the fully extracted row is forwarded and the stream still ends
with `End`. -/
theorem row_forwarded_iff_full_extraction_witness :
    ItemStream.Value (extractRow 1 rawRowOk)
        ∈ queryReplies connTwoRows () demoQuery DatabaseParams.empty
    ∧ (queryReplies connTwoRows () demoQuery DatabaseParams.empty).getLast?
        = some ItemStream.End := by
  have h := row_forwarded_iff_full_extraction connTwoRows () demoQuery
    DatabaseParams.empty stmtTwoRows [Except.ok rawRowOk, Except.ok rawRowBad]
    rfl rfl
  exact ⟨h.1 rawRowOk (List.Mem.head _) (by decide), h.2.2⟩

end RusqliteAsync
